import Mathlib

/-!
# Verification of the question-set / session-state logic of `main_script.py`

This file shallowly embeds the state-management core of the study-tool
script: the session-state record, the question-generation commit, the
topic ledger, the dictation merge for answers, and the evaluation
aggregation.  External services (the LLM completion endpoint and the
audio transcription endpoint) are modelled as function parameters: the
script only ever sends them a request derived from local state and
consumes their textual/parsed response, so a call is embedded as an
application of the supplied function to the data the script would embed
in the request.  Streamlit rerun model is embedded by making each
button handler / per-rerun block an explicit function on the state it
reads and writes.
-/

/-! ## Python string helpers -/

/-- The characters the Python strip method removes (ASCII whitespace). -/
def isPySpace (c : Char) : Bool :=
  c = ' ' || c = '\t' || c = '\n' || c = '\r' || c = Char.ofNat 11 || c = Char.ofNat 12

/-- The Python expression `s.strip()`: drop whitespace from both ends. -/
def pyStrip (s : String) : String :=
  ⟨((s.data.dropWhile isPySpace).reverse.dropWhile isPySpace).reverse⟩

/-- Python truthiness of a JSON string field fetched with `dict.get`:
`None` (missing key) and the empty string are falsy. -/
def truthy : Option String → Bool
  | none => false
  | some s => !s.isEmpty

/-! ## Data model -/

/-- One parsed item of the generation response, before normalization:
a JSON object whose `topic` / `question` / `answer_key` keys may be
missing (`dict.get` returns `None`). -/
structure RawItem where
  topic : Option String
  question : Option String
  answer_key : Option String
deriving DecidableEq, Repr

/-- A normalized question as stored in session state (lines 247-255). -/
structure Question where
  topic : String
  question : String
  answer_key : String
deriving DecidableEq, Repr

/-- One committed question set as appended to
`st.session_state["all_question_sets"]` (lines 284-289).  The wall-clock
`timestamp` field is omitted: it is external input never read back by
any logic under verification. -/
structure QSet where
  set_id : Nat
  questions : List Question
  topics : List String
deriving DecidableEq, Repr

/-- One parsed evaluation result (score/feedback/model_answer).  The
`score` key may be missing from the model JSON, hence `Option`:
the aggregation uses `r.get("score", 0)`. -/
structure Evaluation where
  score : Option Int
  feedback : String
  model_answer : String
deriving DecidableEq, Repr

/-- The session-state fields relevant to the question/answer/evaluation
lifecycle (lines 30-55; `all_question_sets` is created empty on first
use at line 276-277, so it is a plain list here). -/
structure SessionState where
  question_set_id : Nat
  questions : List Question
  user_answers : List String
  evaluations : List Evaluation
  all_question_sets : List QSet
  current_set_id : Option Nat
deriving DecidableEq, Repr

/-- The initial session state (lines 30-55). -/
def initialState : SessionState :=
  { question_set_id := 0
    questions := []
    user_answers := []
    evaluations := []
    all_question_sets := []
    current_set_id := none }

/-! ## Topic ledger (lines 114-122) -/

/-- The function `get_used_topics` (lines 114-122): iterate over all stored sets, collect every
topic into a Python `set`, and return `sorted(list(used))`.  The
set-then-sort is embedded as dedup-then-sort, which produces the same
sorted duplicate-free list. -/
def get_used_topics (sets : List QSet) : List String :=
  List.insertionSort (· ≤ ·) ((sets.map QSet.topics).flatMap id).dedup

/-! ## Question generation (lines 236-292) -/

/-- Normalization of one response item (lines 248-252): fetch each
field with default `""` and strip it. -/
def normalize_item (item : RawItem) : Question :=
  { topic := pyStrip (item.topic.getD "")
    question := pyStrip (item.question.getD "")
    answer_key := pyStrip (item.answer_key.getD "") }

/-- The `all_questions` list comprehension (lines 247-255): keep items
whose raw `question` and `answer_key` are truthy (present and
non-empty BEFORE stripping), and normalize the survivors. -/
def all_questions_of (items : List RawItem) : List Question :=
  (items.filter (fun it => truthy it.question && truthy it.answer_key)).map normalize_item

/-- Topic extraction from the committed questions (line 279): keep the
(already stripped) non-empty topics. -/
def topics_of (qs : List Question) : List String :=
  (qs.filter (fun q => q.topic ≠ "")).map Question.topic

/-- The generation attempt and commit (lines 236-292).  `resp` is the
outcome of the external call plus JSON parse: `Except.error` covers both
a service failure and an unparseable response (the single `try/except`
at lines 236-261 sets `all_questions = []` in either case).  On a
truthy `all_questions` the commit block (lines 263-292) stores the
questions, resets `user_answers` to empty strings of matching length,
appends the new set to history with `set_id = len(all_sets)`, and marks
it current.  `evaluations` is not written anywhere in this block. -/
def runGeneration (s : SessionState) (resp : Except Unit (List RawItem)) : SessionState :=
  let all_questions : List Question :=
    match resp with
    | .error _ => []
    | .ok items => all_questions_of items
  if all_questions.isEmpty then s
  else
    let new_set_id := s.all_question_sets.length
    { s with
      questions := all_questions
      user_answers := List.replicate all_questions.length ""
      all_question_sets := s.all_question_sets ++
        [{ set_id := new_set_id, questions := all_questions, topics := topics_of all_questions }]
      current_set_id := some new_set_id }

/-- The `Generate Questions` button handler in the non-empty-document
branch (lines 145-148): set the generate flag and increment
`question_set_id` before the rerun that performs the attempt.  The
transient `generate_now` flag is consumed unread by anything else and
is not part of the embedded state. -/
def clickGenerate (s : SessionState) : SessionState :=
  { s with question_set_id := s.question_set_id + 1 }

/-- The `Generate a New Set of Questions` button handler
(lines 481-488): clear questions, answers and evaluations, increment
`question_set_id`, and request a generation on the rerun. -/
def clickGenerateNewSet (s : SessionState) : SessionState :=
  { s with
    questions := []
    user_answers := []
    evaluations := []
    question_set_id := s.question_set_id + 1 }

/-- One full generation pass (lines 150-292): read the used topics,
send one request embedding the requested count and the exclusion list
(`svc` stands for the prompt build + LLM call + code-fence strip + JSON
parse), then run the attempt/commit on the response. -/
def generateWithCount (num_questions : Nat) (s : SessionState)
    (svc : Nat → List String → Except Unit (List RawItem)) : SessionState :=
  runGeneration s (svc num_questions (get_used_topics s.all_question_sets))

/-! ## Dictation merge per question (lines 305-376)

Per question index the loop body keeps three pieces of state: the
answer text under key `ans_{qid}_{i}` (mirrored into
`user_answers[i]`, both always written together, embedded as one
string), the last processed payload hash under `last_audio_hash_{i}`,
and the user-visible message it emits.  The audio payload delivered by
the recorder widget is a byte string, embedded as `List Nat`; the
SHA-256 hex digest and the transcription call are the external
parameters `hash` and `transcribe`. -/

/-- The user-visible outcome of one pass of the dictation block. -/
inductive DictMsg where
  /-- No audio payload present: no dictation message. -/
  | nothing
  /-- Line 330: payload hash equals the stored hash. -/
  | alreadyTranscribed
  /-- Line 358: non-empty transcript appended. -/
  | appended
  /-- Line 360: the transcription came back empty. -/
  | emptyTranscript
deriving DecidableEq, Repr

/-- One pass of the per-question answer block (lines 322-374) for one
index: the dictation merge (lines 324-363) followed by the
unconditional text-area pre-fill assignment (lines 365-374), which
recombines the stripped stored text with `dictated_text` and writes the
result back.  Returns (new stored answer, new stored hash, message). -/
def processDictation (hash : List Nat → Nat) (transcribe : List Nat → String)
    (stored : String) (storedHash : Option Nat) (audio : Option (List Nat)) :
    String × Option Nat × DictMsg :=
  -- lines 322-363: dictated_text starts empty and the audio block may
  -- fill it, merge it into the stored answer and record the hash
  let afterAudio : String × Option Nat × String × DictMsg :=
    match audio with
    | none => (stored, storedHash, "", .nothing)
    | some bytes =>
      let audio_hash := hash bytes
      if storedHash = some audio_hash then
        (stored, storedHash, "", .alreadyTranscribed)
      else
        let dictated_text := pyStrip (transcribe bytes)
        if dictated_text ≠ "" then
          let existing_text := pyStrip stored
          let new_text :=
            if existing_text ≠ "" then existing_text ++ " " ++ dictated_text
            else dictated_text
          (new_text, some audio_hash, dictated_text, .appended)
        else
          (stored, storedHash, "", .emptyTranscript)
  -- lines 365-374: recompute new_text from the (possibly updated)
  -- stored value and the same dictated_text, and store it again
  let (stored1, hash1, dictated_text, msg) := afterAudio
  let existing_text := pyStrip stored1
  let new_text :=
    if existing_text ≠ "" then existing_text ++ " " ++ dictated_text
    else dictated_text
  (new_text, hash1, msg)

/-! ## Evaluation (lines 383-462) -/

/-- The data `score_short_answers` embeds in the grading request
(lines 420-427): one (question, expected, response) triple per zipped
pair; the Python `zip` builtin truncates to the shorter list. -/
def evalPayload (questions : List Question) (user_answers : List String) :
    List (String × String × String) :=
  (questions.zip user_answers).map (fun qa => (qa.1.question, qa.1.answer_key, qa.2))

/-- The function `score_short_answers` (lines 383-442): build the grading request
from the zipped triples, call the service, parse its response
(`svc` stands for the call + code-fence strip + JSON parse), and return
the parsed list; any exception is caught and `[]` is returned
(lines 440-442).  No length comparison of `questions` and
`user_answers` occurs anywhere. -/
def score_short_answers (user_answers : List String) (questions : List Question)
    (svc : List (String × String × String) → Except Unit (List Evaluation)) :
    List Evaluation :=
  match svc (evalPayload questions user_answers) with
  | .ok results => results
  | .error _ => []

/-- Line 453, `total_score`: `sum(r.get("score", 0) for r in results)`. -/
def total_score (results : List Evaluation) : Int :=
  (results.map (fun r => r.score.getD 0)).sum

/-- Line 454, `max_score`: `len(results) * 10`. -/
def max_score (results : List Evaluation) : Nat :=
  results.length * 10

/-- Round-half-to-even on an exact rational, the Python `round` tie rule. -/
def roundHalfEven (q : ℚ) : ℤ :=
  let f := ⌊q⌋
  let r := q - f
  if r < 1/2 then f
  else if 1/2 < r then f + 1
  else if f % 2 = 0 then f else f + 1

/-- The Python expression `round(x, 1)` on an exact rational. -/
def pyRound1 (q : ℚ) : ℚ :=
  (roundHalfEven (q * 10) : ℚ) / 10

/-- Line 455, `percentage`: `round(total_score / max_score * 100, 1)`,
with the arithmetic embedded exactly over ℚ. -/
def percentage (results : List Evaluation) : ℚ :=
  pyRound1 ((total_score results : ℚ) / (max_score results : ℚ) * 100)

/-- What the evaluate handler displays about the aggregate: either the
total/max/percentage line (line 462) or nothing at all — the
`if results:` block (lines 449-462) has no else branch. -/
inductive ScoreReport where
  | silent
  | scored (total : Int) (maxPts : Nat) (pct : ℚ)
deriving DecidableEq, Repr

/-- The `Evaluate My Answers` button handler (lines 444-462): score the
answers, store the results into `evaluations` unconditionally
(line 447), and compute/display the aggregate only when the result
list is truthy (non-empty). -/
def evaluateClick (questions : List Question) (user_answers : List String)
    (svc : List (String × String × String) → Except Unit (List Evaluation)) :
    List Evaluation × ScoreReport :=
  let results := score_short_answers user_answers questions svc
  if results.isEmpty then (results, .silent)
  else (results, .scored (total_score results) (max_score results) (percentage results))

/-! ## Fixtures for concrete instances -/

/-- A sample parsed evaluation result. -/
def ev5 : Evaluation := { score := some 5, feedback := "f", model_answer := "m" }

/-- A second sample parsed evaluation result. -/
def ev9 : Evaluation := { score := some 9, feedback := "g", model_answer := "n" }

/-- The three evaluations with scores 9, 6, 10 named by the spec. -/
def evalTriple : List Evaluation :=
  [{ score := some 9, feedback := "", model_answer := "" },
   { score := some 6, feedback := "", model_answer := "" },
   { score := some 10, feedback := "", model_answer := "" }]

/-- A well-formed generation response item. -/
def item1 : RawItem := { topic := some "t1", question := some "q1", answer_key := some "a1" }

/-- A second well-formed generation response item. -/
def item2 : RawItem := { topic := some "t2", question := some "q2", answer_key := some "a2" }

/-- A response item whose question text is whitespace only. -/
def itemWS : RawItem := { topic := some "t", question := some "  ", answer_key := some "a" }

/-- Three questions, for the length-mismatch scenario. -/
def qs3 : List Question :=
  [{ topic := "t1", question := "q1", answer_key := "a1" },
   { topic := "t2", question := "q2", answer_key := "a2" },
   { topic := "t3", question := "q3", answer_key := "a3" }]

/-- Two answers, for the length-mismatch scenario. -/
def as2 : List String := ["x", "y"]

/-- A committed first question set, for the mid-session fixture. -/
def qsetExample : QSet :=
  { set_id := 0
    questions := [{ topic := "t", question := "q", answer_key := "a" }]
    topics := ["t"] }

/-- A mid-session state: one active question, one answer, one stored
evaluation, round counter at 3. -/
def sExample : SessionState :=
  { question_set_id := 3
    questions := [{ topic := "t", question := "q", answer_key := "a" }]
    user_answers := ["u"]
    evaluations := [ev5]
    all_question_sets := [qsetExample]
    current_set_id := some 0 }

/-! ## Claims -/

/-- C1: the claim says that merging a newly transcribed transcript "B"
onto a stored answer "A" yields "A B", appended exactly once.  The code
appends the transcript twice in the same pass: the dictation block
(lines 346-356) writes "A B", then the unconditional pre-fill block
(lines 365-374) appends `dictated_text` again, storing "A B B".  This
theorem evaluates the embedded code at that failing input. -/
theorem dictation_appends_transcript_twice :
    processDictation List.sum (fun _ => "B") "A" none (some [1]) =
      ("A B B", some 1, DictMsg.appended) ∧ "A B B" ≠ "A B" := by
  exact ⟨by decide, by decide⟩

/-- C2 counterexample: a failed generation attempt does not leave the
session state exactly as it was before the attempt.  The button click
that triggers the attempt increments `question_set_id` even when the
attempt then fails, and the new-set button clears `evaluations` before
the attempt, so after a failure they are not restored. -/
theorem failed_generation_changes_counters_cex :
    (runGeneration (clickGenerate sExample) (Except.error ())).question_set_id ≠
      sExample.question_set_id ∧
    (runGeneration (clickGenerateNewSet sExample) (Except.error ())).evaluations ≠
      sExample.evaluations := by
  exact ⟨by decide, by decide⟩

/-- C2 amended: the generation attempt itself (service call, parse,
commit) leaves the whole session state unchanged on failure — no
partial QuestionSet is committed — but the button handlers that
trigger it have already incremented `question_set_id`, and the new-set
handler has already cleared questions/answers/evaluations; those prior
effects persist after the failure. -/
theorem failed_generation_commits_nothing (s : SessionState) :
    runGeneration s (Except.error ()) = s ∧
    (runGeneration (clickGenerate s) (Except.error ())).question_set_id =
      s.question_set_id + 1 ∧
    runGeneration (clickGenerateNewSet s) (Except.error ()) = clickGenerateNewSet s := by
  exact ⟨rfl, rfl, rfl⟩

/-- C3 counterexample: a successful generation commit (the new set is
appended and marked active) does not reset the evaluation array — the
evaluations of the previous set are still in state afterwards. -/
theorem successful_generation_keeps_stale_evaluations_cex :
    (runGeneration sExample (Except.ok [item1])).current_set_id = some 1 ∧
    (runGeneration sExample (Except.ok [item1])).all_question_sets.length = 2 ∧
    (runGeneration sExample (Except.ok [item1])).evaluations = [ev5] ∧
    [ev5] ≠ ([] : List Evaluation) := by
  refine ⟨by decide, by decide, by decide, by decide⟩

/-- C3 amended: a successful generation commit resets `user_answers`
to empty strings of the new length and installs the new question list,
but leaves `evaluations` untouched; evaluations are cleared only by the
separate `Generate a New Set of Questions` button handler, which runs
before the attempt on that path. -/
theorem generation_resets_answers_not_evaluations (s : SessionState)
    (items : List RawItem) (h : all_questions_of items ≠ []) :
    (runGeneration s (Except.ok items)).questions = all_questions_of items ∧
    (runGeneration s (Except.ok items)).user_answers =
      List.replicate (all_questions_of items).length "" ∧
    (runGeneration s (Except.ok items)).evaluations = s.evaluations ∧
    (runGeneration (clickGenerateNewSet s) (Except.ok items)).evaluations = [] := by
  have hne : (all_questions_of items).isEmpty = false := by
    simpa [List.isEmpty_iff] using h
  unfold runGeneration
  simp [hne, clickGenerateNewSet]

/-- C3 witness at a concrete input. -/
theorem generation_resets_answers_not_evaluations_witness :
    (runGeneration sExample (Except.ok [item1])).evaluations = sExample.evaluations ∧
    (runGeneration sExample (Except.ok [item1])).user_answers = [""] :=
  ⟨(generation_resets_answers_not_evaluations sExample [item1] (by decide)).2.2.1,
   (generation_resets_answers_not_evaluations sExample [item1] (by decide)).2.1⟩

/-- C4 counterexample: with 3 questions and 2 answers the evaluator
does not return a length-mismatch failure and does consult the external
service: the request payload holds the 2 zip-truncated pairs and the
parsed service response is returned as the result. -/
theorem evaluator_no_length_check_cex :
    (evalPayload qs3 as2).length = 2 ∧
    score_short_answers as2 qs3 (fun _ => Except.ok [ev5]) = [ev5] := by
  exact ⟨by decide, by decide⟩

/-- C4 amended: `score_short_answers` performs no length comparison:
it always sends the zip-truncated `min` pairs to the service and
returns whatever the service response parses to. -/
theorem evaluator_zips_and_calls_service (questions : List Question)
    (user_answers : List String)
    (svc : List (String × String × String) → Except Unit (List Evaluation)) :
    (evalPayload questions user_answers).length =
      min questions.length user_answers.length ∧
    (∀ results, svc (evalPayload questions user_answers) = Except.ok results →
      score_short_answers user_answers questions svc = results) := by
  constructor
  · simp [evalPayload]
  · intro results h
    simp [score_short_answers, h]

/-- C4 witness at a concrete input. -/
theorem evaluator_zips_and_calls_service_witness :
    score_short_answers as2 qs3 (fun _ => Except.ok [ev9]) = [ev9] :=
  (evaluator_zips_and_calls_service qs3 as2 (fun _ => Except.ok [ev9])).2 [ev9] rfl

/-- C5 counterexample: evaluating the empty set with an empty parsed
response produces no report at all — the handler stores the empty
result list and stays silent (the aggregate block has no else branch);
there is no `NothingToEvaluate` outcome anywhere in the code, whose
only report vocabulary is silence or the score line. -/
theorem empty_evaluation_silent_cex :
    evaluateClick [] [] (fun _ => Except.ok []) = ([], ScoreReport.silent) := by
  decide

/-- C5 amended: the percentage division is unreachable with a zero
denominator — the aggregate line is computed only when the result list
is non-empty, and then `max_score = 10 * len > 0` — but an empty result
list yields no report at all rather than a `NothingToEvaluate`
report. -/
theorem evaluation_division_guard (questions : List Question)
    (user_answers : List String)
    (svc : List (String × String × String) → Except Unit (List Evaluation)) :
    (∀ t m p, (evaluateClick questions user_answers svc).2 = ScoreReport.scored t m p →
      0 < m) ∧
    (score_short_answers user_answers questions svc = [] →
      (evaluateClick questions user_answers svc).2 = ScoreReport.silent) := by
  constructor
  · intro t m p hp
    by_cases hE : (score_short_answers user_answers questions svc).isEmpty
    · simp [evaluateClick, hE] at hp
    · simp [evaluateClick, hE] at hp
      obtain ⟨-, hm, -⟩ := hp
      have hne : score_short_answers user_answers questions svc ≠ [] := by
        simpa [List.isEmpty_iff] using hE
      have hlen : 0 < (score_short_answers user_answers questions svc).length :=
        List.length_pos.mpr hne
      rw [← hm]
      unfold max_score
      exact Nat.mul_pos hlen (by norm_num)
  · intro he
    simp [evaluateClick, he]

/-- C5 witness at a concrete input: an aggregate that is actually
reported has a positive denominator. -/
theorem evaluation_division_guard_witness :
    (0 : Nat) < 10 ∧
    (evaluateClick qs3 ["x", "y", "z"] (fun _ => Except.ok [ev5])).2 =
      ScoreReport.scored 5 10 50 := by
  have hpct : percentage [ev5] = 50 := by
    have h1 : ((total_score [ev5] : ℚ)) / ((max_score [ev5] : ℚ)) * 100 = 50 := by
      norm_num [total_score, max_score, ev5]
    rw [percentage, h1, pyRound1, roundHalfEven]
    norm_num
  have hEq : (evaluateClick qs3 ["x", "y", "z"] (fun _ => Except.ok [ev5])).2 =
      ScoreReport.scored 5 10 50 := by
    show ScoreReport.scored (total_score [ev5]) (max_score [ev5]) (percentage [ev5]) =
      ScoreReport.scored 5 10 50
    have ht : total_score [ev5] = 5 := by decide
    have hm : max_score [ev5] = 10 := by decide
    rw [ht, hm, hpct]
  exact ⟨(evaluation_division_guard qs3 ["x", "y", "z"]
    (fun _ => Except.ok [ev5])).1 5 10 50 hEq, hEq⟩

/-- C6 counterexample: a generation requesting 1 question whose
response parses to 2 well-formed items commits a set of 2 questions —
the requested count does not bound the committed set. -/
theorem committed_exceeds_requested_cex :
    (generateWithCount 1 initialState
        (fun _ _ => Except.ok [item1, item2])).questions.length = 2 ∧
    ¬ ((generateWithCount 1 initialState
        (fun _ _ => Except.ok [item1, item2])).questions.length ≤ 1) := by
  exact ⟨by decide, by decide⟩

/-- C6 amended: the committed question list is the filtered response
list, so its length is bounded by the length of the parsed response;
the requested count appears only inside the prompt and is not enforced
locally. -/
theorem committed_length_bounded_by_response (s : SessionState) (items : List RawItem)
    (h : all_questions_of items ≠ []) :
    (all_questions_of items).length ≤ items.length ∧
    (runGeneration s (Except.ok items)).questions.length ≤ items.length := by
  have hlen : (all_questions_of items).length ≤ items.length := by
    unfold all_questions_of
    rw [List.length_map]
    exact List.length_filter_le _ _
  have hne : (all_questions_of items).isEmpty = false := by
    simpa [List.isEmpty_iff] using h
  refine ⟨hlen, ?_⟩
  unfold runGeneration
  simp [hne, hlen]

/-- C6 witness at a concrete input. -/
theorem committed_length_bounded_by_response_witness :
    (runGeneration initialState (Except.ok [item1])).questions.length ≤ 1 :=
  (committed_length_bounded_by_response initialState [item1] (by decide)).2

/-- C7: the claim says a re-delivered identical payload leaves the
stored answer unchanged and reports it was already transcribed.  The
code does report it (line 330) and skips the transcription, but the
unconditional pre-fill block (lines 365-374) still rewrites the stored
answer to its stripped value plus a trailing space, so the stored
answer changes.  This theorem evaluates the embedded code at that
failing input. -/
theorem redelivered_audio_mutates_answer :
    processDictation List.sum (fun _ => "B") "A B B" (some 1) (some [1]) =
      ("A B B ", some 1, DictMsg.alreadyTranscribed) ∧ "A B B " ≠ "A B B" := by
  exact ⟨by decide, by decide⟩

/-- C8 counterexample: an item whose `question` is whitespace-only
passes the truthiness filter (the check runs BEFORE stripping) and is
committed with an empty `question` string. -/
theorem whitespace_question_survives_filter_cex :
    (runGeneration initialState (Except.ok [itemWS])).questions =
      [{ topic := "t", question := "", answer_key := "a" }] ∧
    (runGeneration initialState (Except.ok [itemWS])).current_set_id = some 0 := by
  exact ⟨by decide, by decide⟩

/-- C8 amended: every committed Question comes from a response item
whose raw `question` and `answer_key` were present and non-empty, and
its fields are the stripped raw values; items missing either field (or
with an empty-string value) are dropped, but a whitespace-only raw
value passes the filter and is stored as the empty string. -/
theorem committed_question_from_truthy_raw (items : List RawItem) :
    ∀ q ∈ all_questions_of items, ∃ it ∈ items,
      truthy it.question = true ∧ truthy it.answer_key = true ∧ q = normalize_item it := by
  intro q hq
  unfold all_questions_of at hq
  rw [List.mem_map] at hq
  obtain ⟨it, hit, hq⟩ := hq
  rw [List.mem_filter] at hit
  obtain ⟨hmem, hb⟩ := hit
  rw [Bool.and_eq_true] at hb
  exact ⟨it, hmem, hb.1, hb.2, hq.symm⟩

/-- C8 witness at a concrete input. -/
theorem committed_question_from_truthy_raw_witness :
    ∃ it ∈ [item1], truthy it.question = true ∧ truthy it.answer_key = true ∧
      ({ topic := "t1", question := "q1", answer_key := "a1" } : Question) =
        normalize_item it :=
  committed_question_from_truthy_raw [item1] _ (by decide)

/-- C9: `get_used_topics` returns exactly the deduplicated union of
the `topics` fields over all committed sets, as a sorted duplicate-free
sequence, and a failed generation attempt leaves it unchanged (a
failed attempt appends nothing to the history it is computed from). -/
theorem used_topics_sorted_dedup_union (sets : List QSet) (s : SessionState) :
    (∀ t : String, t ∈ get_used_topics sets ↔ ∃ q ∈ sets, t ∈ q.topics) ∧
    List.Sorted (· ≤ ·) (get_used_topics sets) ∧
    (get_used_topics sets).Nodup ∧
    get_used_topics (runGeneration s (Except.error ())).all_question_sets =
      get_used_topics s.all_question_sets := by
  refine ⟨?_, List.sorted_insertionSort _ _,
    (List.perm_insertionSort _ _).nodup_iff.mpr (List.nodup_dedup _), rfl⟩
  intro t
  unfold get_used_topics
  rw [(List.perm_insertionSort _ _).mem_iff, List.mem_dedup, List.mem_flatMap]
  simp

/-- C10: the aggregate is `total = sum of scores`,
`max = 10 * number of evaluations`, and
`percentage = round(100 * total / max, 1)` (the code writes
`total / max * 100`, equal over exact arithmetic); scores [9, 6, 10]
yield total 25, max 30, percentage 83.3. -/
theorem aggregate_score_formula (results : List Evaluation) (h : results ≠ []) :
    total_score results = (results.map (fun r => r.score.getD 0)).sum ∧
    max_score results = 10 * results.length ∧
    0 < max_score results ∧
    percentage results =
      pyRound1 (100 * (total_score results : ℚ) / (max_score results : ℚ)) ∧
    total_score evalTriple = 25 ∧ max_score evalTriple = 30 ∧
    percentage evalTriple = 833 / 10 := by
  have ht : total_score evalTriple = 25 := by decide
  have hm : max_score evalTriple = 30 := by decide
  have hp : percentage evalTriple = 833 / 10 := by
    rw [percentage, ht, hm]
    have h2 : ((25 : ℤ) : ℚ) / ((30 : ℕ) : ℚ) * 100 = 250 / 3 := by norm_num
    rw [h2, pyRound1]
    norm_num
    rw [roundHalfEven]
    norm_num
  refine ⟨rfl, by simp [max_score, Nat.mul_comm],
    Nat.mul_pos (List.length_pos.mpr h) (by norm_num), ?_, ht, hm, hp⟩
  unfold percentage
  congr 1
  ring

/-- C10 witness at the concrete scores named by the spec. -/
theorem aggregate_score_formula_witness :
    total_score evalTriple = 25 ∧ max_score evalTriple = 30 ∧
    percentage evalTriple = 833 / 10 :=
  ⟨(aggregate_score_formula evalTriple (by decide)).2.2.2.2.1,
   (aggregate_score_formula evalTriple (by decide)).2.2.2.2.2.1,
   (aggregate_score_formula evalTriple (by decide)).2.2.2.2.2.2⟩
